import Mathlib

/-!
# Verification of the gofr error-dispatch core and MQTT publish adapter

Shallow embedding of:
* `Handler.ServeHTTP`, `processErrors`, `incrPrometheusCounter` and
  `evaluateTimeAndTimeZone` from the gofr HTTP handler source file, and
* `MQTT.PublishEvent` from `pkg/datastore/pubsub/mqtt/mqtt.go`.

Side effects are made explicit: the current time is an ambient parameter
(`GoTime`), Prometheus counter increments are collected into a list of
labels, and error-severity log lines are collected into a list of strings.
-/

namespace Gofr

/-- The pair returned by Go's `time.Now()` as consumed by this code:
`now.UTC().Format(time.RFC3339)` and the local zone abbreviation
`now.Zone()`.  Time is ambient state, so it is a parameter of the
embedding. -/
structure GoTime where
  utcRFC3339 : String
  zoneAbbrev : String
deriving Repr, DecidableEq

/-- `errors.DateTime`: the `Value`/`TimeZone` pair embedded in
`errors.Response`. -/
structure DateTime where
  value : String
  timeZone : String
deriving Repr, DecidableEq

/-- `errors.Response`: the normalized wire representation of one error.
`Detail` (an `interface{}`) and `RootCauses` entries are modelled as
opaque strings; nothing in the dispatch code inspects them. -/
structure Response where
  statusCode : Nat
  code : String
  reason : String
  resourceID : String
  detail : String
  path : String
  rootCauses : List String
  dateTime : DateTime
deriving Repr, DecidableEq

/-- The error taxonomy consumed by `processErrors`.  One constructor per
`case` of the type switch, plus `generic` for any unrecognized error and
`entityAlreadyExists` (filtered in `ServeHTTP`, hits the `default`
branch if it ever reaches `processErrors` inside a MultiError). -/
inductive GoErr where
  | invalidParam (params : List String)
  | missingParam (params : List String)
  | entityNotFound (entity id : String)
  | fileNotFound
  | methodMissing (method url : String)
  | db (msg : String)
  | raw (statusCode : Nat) (errMsg : String)
  | preformed (resp : Response)
  | multiple (statusCode : Nat) (errs : List GoErr)
  | entityAlreadyExists
  | generic (msg : String)
deriving Repr

mutual

/-- Modelled from the spec: the `Error()` strings of the gofr error
taxonomy live in `gofr.dev/pkg/errors`, which is not among the source
files; the messages follow the error documentation shipped with the
source ("Incorrect value for parameter: <param>", "Missing value for
parameter: <param>", "No \x27<entity>\x27 found for Id: \x27<id>\x27",
"Method \x27<m>\x27 for \x27<url>\x27 not defined yet"; `DB` and `Raw`
return the wrapped error's text; `Response` returns its `Reason`).
`multiple` joins its children's messages with newlines. -/
def GoErr.errorMsg : GoErr → String
  | .invalidParam ps => "Incorrect value for parameter: " ++ String.intercalate " " ps
  | .missingParam ps => "Missing value for parameter: " ++ String.intercalate " " ps
  | .entityNotFound entity id =>
      "No \x27" ++ entity ++ "\x27 found for Id: \x27" ++ id ++ "\x27"
  | .fileNotFound => "File not found"
  | .methodMissing method url =>
      "Method \x27" ++ method ++ "\x27 for \x27" ++ url ++ "\x27 not defined yet"
  | .db msg => msg
  | .raw _ errMsg => errMsg
  | .preformed resp => resp.reason
  | .multiple _ errs => String.intercalate "\n" (GoErr.errorMsgList errs)
  | .entityAlreadyExists => "entity already exists"
  | .generic msg => msg

/-- The messages of a list of errors, in order. -/
def GoErr.errorMsgList : List GoErr → List String
  | [] => []
  | e :: rest => e.errorMsg :: GoErr.errorMsgList rest

end

/-- An element of the `Errors []error` list of an `errors.MultipleErrors`
result.  `processErrors` only ever appends `*errors.Response` pointers
(`resp`) or `errors.Raw` values (`raw`) to this list. -/
inductive ErrElem where
  | resp (r : Response)
  | raw (statusCode : Nat) (errMsg : String)
deriving Repr, DecidableEq

/-- `errors.MultipleErrors`: one overall status code plus the ordered
element list. -/
structure MultipleErrors where
  statusCode : Nat
  errors : List ErrElem
deriving Repr, DecidableEq

/-- `prometheusLabel`: the label triple attached to a counter
increment. -/
structure prometheusLabel where
  labelType : String
  path : String
  method : String
deriving Repr, DecidableEq

/-- Result of `processErrors`: the returned `MultipleErrors` plus the
collected side effects (counter increments, error-severity log lines). -/
structure PEResult where
  result : MultipleErrors
  incs : List prometheusLabel
  logs : List String
deriving Repr, DecidableEq

/-- Accumulated results of processing each element of a MultiError's
list (the `for _, v := range v.Errors` loop). -/
structure PLResult where
  elems : List ErrElem
  incs : List prometheusLabel
  logs : List String
deriving Repr, DecidableEq

/-- `evaluateTimeAndTimeZone`: formatted UTC RFC3339 time and local zone
abbreviation. -/
def evaluateTimeAndTimeZone (now : GoTime) : String × String :=
  (now.utcRFC3339, now.zoneAbbrev)

/-- `incrPrometheusCounter`: fires only when the response's status code
is 500 or 0 and the response is not partial; when it fires it logs the
reason at error severity and increments the labeled counter. -/
def incrPrometheusCounter (isPartialError : Bool) (errResp : Response)
    (label : prometheusLabel) : List prometheusLabel × List String :=
  if (errResp.statusCode == 500 || errResp.statusCode == 0) && !isPartialError then
    ([label], ["error occurred " ++ errResp.reason])
  else
    ([], [])

mutual

/-- `processErrors`: normalizes one error into an `errors.MultipleErrors`,
recursing into MultiError elements.  `now` is the ambient clock value
(`evaluateTimeAndTimeZone`). -/
def processErrors (now : GoTime) (path method : String) (isPartialError : Bool) :
    GoErr → PEResult
  | .invalidParam ps =>
      let errResp : Response :=
        ⟨400, "Invalid Parameter", (GoErr.invalidParam ps).errorMsg, "", "", "", [],
          ⟨now.utcRFC3339, now.zoneAbbrev⟩⟩
      ⟨⟨errResp.statusCode, [.resp errResp]⟩, [], []⟩
  | .missingParam ps =>
      let errResp : Response :=
        ⟨400, "Missing Parameter", (GoErr.missingParam ps).errorMsg, "", "", "", [],
          ⟨now.utcRFC3339, now.zoneAbbrev⟩⟩
      ⟨⟨errResp.statusCode, [.resp errResp]⟩, [], []⟩
  | .entityNotFound entity id =>
      let errResp : Response :=
        ⟨404, "Entity Not Found", (GoErr.entityNotFound entity id).errorMsg, "", "", "", [],
          ⟨now.utcRFC3339, now.zoneAbbrev⟩⟩
      ⟨⟨errResp.statusCode, [.resp errResp]⟩, [], []⟩
  | .fileNotFound =>
      let errResp : Response :=
        ⟨404, "File Not Found", GoErr.fileNotFound.errorMsg, "", "", "", [],
          ⟨now.utcRFC3339, now.zoneAbbrev⟩⟩
      ⟨⟨errResp.statusCode, [.resp errResp]⟩, [], []⟩
  | .methodMissing method' url =>
      let errResp : Response :=
        ⟨405, "Method not allowed", (GoErr.methodMissing method' url).errorMsg, "", "", "", [],
          ⟨now.utcRFC3339, now.zoneAbbrev⟩⟩
      ⟨⟨errResp.statusCode, [.resp errResp]⟩, [], []⟩
  | .preformed resp =>
      -- Before `errResp = *v`, `errResp` still has StatusCode 0 and
      -- Reason err.Error(); the counter call sees that zero status.
      let errResp0 : Response :=
        ⟨0, "", (GoErr.preformed resp).errorMsg, "", "", "", [],
          ⟨now.utcRFC3339, now.zoneAbbrev⟩⟩
      let eff := incrPrometheusCounter isPartialError errResp0
        ⟨"Unknown Error", path, method⟩
      let v := if resp.dateTime.value = "" then
          { resp with dateTime := ⟨now.utcRFC3339, now.zoneAbbrev⟩ }
        else resp
      ⟨⟨v.statusCode, [.resp v]⟩, eff.1, eff.2⟩
  | .multiple sc errs =>
      let r := processList now path method isPartialError errs
      ⟨⟨sc, r.elems⟩, r.incs, r.logs⟩
  | .db msg =>
      let errResp : Response :=
        ⟨500, "Internal Server Error", "DB Error", "", "", "", [],
          ⟨now.utcRFC3339, now.zoneAbbrev⟩⟩
      let eff := incrPrometheusCounter false errResp ⟨"DB error", path, method⟩
      ⟨⟨errResp.statusCode, [.resp errResp]⟩, eff.1,
        ("DB error occurred " ++ (GoErr.db msg).errorMsg) :: eff.2⟩
  | .raw sc errMsg =>
      ⟨⟨sc, [.raw sc errMsg]⟩, [], []⟩
  | .entityAlreadyExists =>
      let errResp : Response :=
        ⟨500, "Internal Server Error", GoErr.entityAlreadyExists.errorMsg, "", "", "", [],
          ⟨now.utcRFC3339, now.zoneAbbrev⟩⟩
      let eff := incrPrometheusCounter isPartialError errResp ⟨"DB error", path, method⟩
      ⟨⟨errResp.statusCode, [.resp errResp]⟩, eff.1, eff.2⟩
  | .generic msg =>
      let errResp : Response :=
        ⟨500, "Internal Server Error", (GoErr.generic msg).errorMsg, "", "", "", [],
          ⟨now.utcRFC3339, now.zoneAbbrev⟩⟩
      let eff := incrPrometheusCounter isPartialError errResp ⟨"DB error", path, method⟩
      ⟨⟨errResp.statusCode, [.resp errResp]⟩, eff.1, eff.2⟩

/-- The `for _, v := range v.Errors` loop of the MultiError case:
process each element in order and concatenate flattened elements and
effects. -/
def processList (now : GoTime) (path method : String) (isPartialError : Bool) :
    List GoErr → PLResult
  | [] => ⟨[], [], []⟩
  | e :: rest =>
      let r := processErrors now path method isPartialError e
      let rs := processList now path method isPartialError rest
      ⟨r.result.errors ++ rs.elems, r.incs ++ rs.incs, r.logs ++ rs.logs⟩

end

/-- Whether the error is an `errors.MultipleErrors`. -/
def GoErr.isMultiple : GoErr → Bool
  | .multiple _ _ => true
  | _ => false

/-- Whether the error is an `errors.Raw`. -/
def GoErr.isRaw : GoErr → Bool
  | .raw _ _ => true
  | _ => false

/-- Whether the error is a `*errors.Response` (preformed response). -/
def GoErr.isPreformed : GoErr → Bool
  | .preformed _ => true
  | _ => false

/-- Whether the error is `errors.EntityAlreadyExists`. -/
def GoErr.isEntityAlreadyExists : GoErr → Bool
  | .entityAlreadyExists => true
  | _ => false

mutual

/-- The leaf errors of an error tree, left to right: a MultiError
contributes the leaves of its elements, anything else is itself a
leaf. -/
def GoErr.leaves : GoErr → List GoErr
  | .multiple _ errs => GoErr.leavesList errs
  | e => [e]

/-- The leaves of a list of error trees, in order. -/
def GoErr.leavesList : List GoErr → List GoErr
  | [] => []
  | e :: rest => e.leaves ++ GoErr.leavesList rest

end

/-- The `errorResp` value handed to the output writer: either the
handler's error passed through unchanged (`nil` or
`EntityAlreadyExists`), or the aggregated `MultipleErrors` built by
`processErrors`. -/
inductive RespErr where
  | passthrough (e : Option GoErr)
  | aggregated (m : MultipleErrors)
deriving Repr

/-- The observable outcome of `Handler.ServeHTTP` on the error path:
the error value handed to `Respond`, the error message recorded on the
request context for the logging middleware (if any), and the collected
counter increments and log lines. -/
structure ServeResult where
  errorResp : RespErr
  ctxErrorMessage : Option String
  incs : List prometheusLabel
  logs : List String
deriving Repr

/-- `strings.TrimSuffix(path, "/")`: drop one trailing slash if
present (computed on the character list so the kernel can evaluate
it). -/
def trimTrailingSlash (path : String) : String :=
  match path.data.getLast? with
  | some c => if c = '/' then String.mk path.data.dropLast else path
  | none => path

/-- `Handler.ServeHTTP`, error handling only: `data` is whether the
handler returned a non-nil payload, `err` its error.  `nil` errors and
`EntityAlreadyExists` are passed through unchanged; otherwise
`processErrors` aggregates and the error message is recorded on the
request context. -/
def ServeHTTP (now : GoTime) (data : Option Unit) (err : Option GoErr)
    (path method : String) : ServeResult :=
  let path' := trimTrailingSlash path
  match err with
  | none => ⟨.passthrough none, none, [], []⟩
  | some e =>
      if e.isEntityAlreadyExists then
        ⟨.passthrough (some e), none, [], []⟩
      else
        let isPartialResponse := data.isSome
        let r := processErrors now path' method isPartialResponse e
        ⟨.aggregated r.result, some e.errorMsg, r.incs, r.logs⟩

/-- Well-formedness of one emitted element, as the spec's invariant
reads on `ErrorResponse`s: a normalized response must carry a non-zero
status code and a non-empty reason; a raw element is not an
ErrorResponse, so the invariant does not constrain it. -/
def elemOK : ErrElem → Bool
  | .resp r => (r.statusCode != 0) && (r.reason != "")
  | .raw _ _ => true

/-- Leaf-level side condition under which the well-formedness invariant
holds: the leaf is not a preformed `*errors.Response` (those are
emitted as given), and an unclassified leaf carries a non-empty
message. -/
def leafMsgOK : GoErr → Bool
  | .preformed _ => false
  | .generic msg => msg != ""
  | _ => true

end Gofr

namespace Mqtt

/-- The fields of `mqtt.Config` that `PublishEvent` reads. -/
structure Config where
  topic : String
  qoS : Nat
deriving Repr, DecidableEq

/-- One call to `m.Client.Publish(topic, qos, retained, value)`. -/
structure PublishCall where
  topic : String
  qoS : Nat
  retained : Bool
  value : String
deriving Repr, DecidableEq

/-- `MQTT.PublishEvent`: the topic argument is ignored (`_ string`); a
nil client publishes nothing and returns "client not configured";
otherwise the value is published to the configured topic and the
publish token's error (`tokenErr`, ambient) is returned.  Returns the
list of publish calls made and the returned error. -/
def PublishEvent (clientConfigured : Bool) (config : Config)
    (tokenErr : Option String) (_topicArg : String) (value : String) :
    List PublishCall × Option String :=
  if clientConfigured then
    (([⟨config.topic, config.qoS, false, value⟩] : List PublishCall), tokenErr)
  else
    ([], some "client not configured")

end Mqtt

namespace Gofr

/-- `processList` distributes over list append: the loop over a
concatenation produces the concatenated elements and effects. -/
theorem processList_append (now : GoTime) (p m : String) (part : Bool)
    (xs ys : List GoErr) :
    processList now p m part (xs ++ ys) =
      ⟨(processList now p m part xs).elems ++ (processList now p m part ys).elems,
       (processList now p m part xs).incs ++ (processList now p m part ys).incs,
       (processList now p m part xs).logs ++ (processList now p m part ys).logs⟩ := by
  induction xs with
  | nil => simp [processList]
  | cons e rest ih => simp [processList, ih]

/-- Flattening decomposition: the element list produced for any error
is the concatenation, over its leaves in order, of the element lists
produced for each leaf. -/
theorem errors_eq_leaves_flatMap (now : GoTime) (p m : String) (part : Bool)
    (e : GoErr) :
    (processErrors now p m part e).result.errors =
      e.leaves.flatMap (fun l => (processErrors now p m part l).result.errors) := by
  refine processErrors.induct now p m part
    (fun e => (processErrors now p m part e).result.errors =
      e.leaves.flatMap (fun l => (processErrors now p m part l).result.errors))
    (fun es => (processList now p m part es).elems =
      (GoErr.leavesList es).flatMap (fun l => (processErrors now p m part l).result.errors))
    ?_ ?_ ?_ ?_ ?_ ?_ ?_ ?_ ?_ ?_ ?_ ?_ ?_ e
  case _ => intro ps; simp [GoErr.leaves]
  case _ => intro ps; simp [GoErr.leaves]
  case _ => intro entity id; simp [GoErr.leaves]
  case _ => simp [GoErr.leaves]
  case _ => intro method' url; simp [GoErr.leaves]
  case _ => intro resp; simp [GoErr.leaves]
  case _ =>
    intro sc errs ih
    simp [GoErr.leaves, processErrors, ih]
  case _ => intro msg; simp [GoErr.leaves]
  case _ => intro sc errMsg; simp [GoErr.leaves]
  case _ => simp [GoErr.leaves]
  case _ => intro msg; simp [GoErr.leaves]
  case _ => simp [GoErr.leavesList, processList]
  case _ =>
    intro e' rest ih1 ih2
    simp [GoErr.leavesList, processList, List.flatMap_append, ih1, ih2]

/-- Every leaf of an error tree is itself not a MultiError. -/
theorem leaves_not_multiple (e : GoErr) :
    ∀ l ∈ e.leaves, l.isMultiple = false := by
  refine GoErr.leaves.induct
    (fun e => ∀ l ∈ e.leaves, l.isMultiple = false)
    (fun es => ∀ l ∈ GoErr.leavesList es, l.isMultiple = false)
    ?_ ?_ ?_ ?_ e
  · intro sc errs ih
    simpa [GoErr.leaves] using ih
  · intro t ht
    cases t <;> simp [GoErr.leaves, GoErr.isMultiple]
    exact absurd rfl (fun h => ht _ _ h)
  · simp [GoErr.leavesList]
  · intro e' rest ih1 ih2
    simp only [GoErr.leavesList, List.mem_append]
    rintro l (hl | hl)
    · exact ih1 l hl
    · exact ih2 l hl

/-- Any non-MultiError, non-Raw error normalizes to a single
`*errors.Response` element. -/
theorem leaf_resp (now : GoTime) (p m : String) (part : Bool) (e : GoErr)
    (hm : e.isMultiple = false) (hr : e.isRaw = false) :
    ∃ r, (processErrors now p m part e).result.errors = [ErrElem.resp r] := by
  cases e <;> simp [GoErr.isMultiple, GoErr.isRaw] at hm hr ⊢ <;>
    exact ⟨_, rfl⟩

/-- A list that maps to singleton lists flattens to a list of the same
length. -/
theorem flatMap_length_of_singletons {α β : Type} (L : List α) (f : α → List β)
    (h : ∀ l ∈ L, (f l).length = 1) : (L.flatMap f).length = L.length := by
  induction L with
  | nil => simp
  | cons x xs ih =>
      simp only [List.flatMap_cons, List.length_append, List.length_cons]
      rw [h x (by simp), ih (fun l hl => h l (by simp [hl]))]
      omega

/-- A string starting with a non-empty string is non-empty. -/
theorem append_ne_empty (a b : String) (h : a ≠ "") : a ++ b ≠ "" := by
  intro hab
  apply h
  have hl := String.length_append a b
  rw [hab] at hl
  have hl0 : 0 = a.length + b.length := hl
  have ha : a.length = 0 := by omega
  exact String.ext_iff.mpr (List.length_eq_zero.mp ha)

/-- Each non-MultiError leaf that is not a preformed response and (if
unclassified) has a non-empty message normalizes to well-formed
elements only. -/
theorem leaf_elems_ok (now : GoTime) (p m : String) (part : Bool) (e : GoErr)
    (hm : e.isMultiple = false) (hok : leafMsgOK e = true) :
    ∀ x ∈ (processErrors now p m part e).result.errors, elemOK x = true := by
  cases e with
  | invalidParam ps =>
      simp [processErrors, elemOK, GoErr.errorMsg]
      exact append_ne_empty _ _ (by decide)
  | missingParam ps =>
      simp [processErrors, elemOK, GoErr.errorMsg]
      exact append_ne_empty _ _ (by decide)
  | entityNotFound entity id =>
      simp [processErrors, elemOK, GoErr.errorMsg]
      exact append_ne_empty _ _
        (append_ne_empty _ _ (append_ne_empty _ _ (append_ne_empty _ _ (by decide))))
  | fileNotFound => simp [processErrors, elemOK, GoErr.errorMsg]
  | methodMissing method' url =>
      simp [processErrors, elemOK, GoErr.errorMsg]
      exact append_ne_empty _ _
        (append_ne_empty _ _ (append_ne_empty _ _ (append_ne_empty _ _ (by decide))))
  | db msg => simp [processErrors, elemOK]
  | raw sc errMsg => simp [processErrors, elemOK]
  | preformed resp => simp [leafMsgOK] at hok
  | multiple sc errs => simp [GoErr.isMultiple] at hm
  | entityAlreadyExists => simp [processErrors, elemOK, GoErr.errorMsg]
  | generic msg =>
      simp [leafMsgOK] at hok
      simp [processErrors, elemOK, GoErr.errorMsg]
      exact hok

/-- C1 (counterexample): a MultiError with declared status 400 holding a
Raw error (status 503) and an InvalidParam sibling aggregates to a
two-element MultiError with status 400 — not to a single-element
MultiError with the Raw's status 503; the sibling is not discarded. -/
theorem raw_in_multi_not_short_circuit :
    ((processErrors ⟨"2024-01-01T00:00:00Z", "UTC"⟩ "/p" "GET" false
        (.multiple 400 [.raw 503 "boom", .invalidParam ["x"]])).result.errors.length = 2) ∧
    ((processErrors ⟨"2024-01-01T00:00:00Z", "UTC"⟩ "/p" "GET" false
        (.multiple 400 [.raw 503 "boom", .invalidParam ["x"]])).result.statusCode = 400) := by
  exact ⟨rfl, rfl⟩

/-- C1 (amended): a Raw error given directly to aggregation returns a
single-element MultiError carrying the Raw's own status code and
underlying error; a Raw nested inside a MultiError does not
short-circuit: it is flattened in place as one un-normalized element,
the results for the siblings before and after it are kept, and the
outer MultiError's declared status code is used. -/
theorem raw_toplevel_and_nested_behavior (now : GoTime) (p m : String) (part : Bool)
    (sc rsc : Nat) (rmsg : String) (pre post : List GoErr) :
    ((processErrors now p m part (.raw rsc rmsg)).result = ⟨rsc, [.raw rsc rmsg]⟩) ∧
    ((processErrors now p m part (.multiple sc (pre ++ .raw rsc rmsg :: post))).result =
      ⟨sc, (processList now p m part pre).elems ++
        .raw rsc rmsg :: (processList now p m part post).elems⟩) := by
  constructor
  · rfl
  · simp [processErrors, processList_append, processList]

/-- C2 (counterexample): a dispatched request whose handler returned a
non-nil payload together with a DatabaseError still increments the
fault counter once — the DB branch hardcodes `isPartialError` to
`false` in its `incrPrometheusCounter` call. -/
theorem db_partial_counter_increments :
    (ServeHTTP ⟨"2024-01-01T00:00:00Z", "UTC"⟩ (some ()) (some (.db "e")) "/p" "GET").incs =
      [⟨"DB error", "/p", "GET"⟩] := by
  decide

/-- C2 (amended): with a nil payload, both a DatabaseError and a generic
unclassified (500) error increment the fault counter exactly once; with
a non-nil payload, a generic 500 error does not increment the counter
(the partial exemption), but a DatabaseError still increments it
exactly once, because the DB branch passes `false` for the partial
flag. -/
theorem fault_counter_policy (now : GoTime) (p m msg : String) :
    ((ServeHTTP now none (some (.db msg)) p m).incs.length = 1) ∧
    ((ServeHTTP now (some ()) (some (.db msg)) p m).incs.length = 1) ∧
    ((ServeHTTP now none (some (.generic msg)) p m).incs.length = 1) ∧
    ((ServeHTTP now (some ()) (some (.generic msg)) p m).incs.length = 0) := by
  refine ⟨?_, ?_, ?_, ?_⟩ <;>
    simp [ServeHTTP, GoErr.isEntityAlreadyExists, processErrors, incrPrometheusCounter]

/-- C4: the client-visible result for a DatabaseError does not depend on
the wrapped error's message: it is always status 500, code "Internal
Server Error", reason exactly "DB Error" (the timestamp being the
ambient clock value); the original message appears only in the
error-severity log line. -/
theorem db_error_redaction (now : GoTime) (p m : String) (part : Bool)
    (msg1 msg2 : String) :
    ((processErrors now p m part (.db msg1)).result =
      (processErrors now p m part (.db msg2)).result) ∧
    ((processErrors now p m part (.db msg1)).result =
      ⟨500, [.resp ⟨500, "Internal Server Error", "DB Error", "", "", "", [],
        ⟨now.utcRFC3339, now.zoneAbbrev⟩⟩]⟩) ∧
    ((processErrors now p m part (.db msg1)).logs.head? =
      some ("DB error occurred " ++ msg1)) := by
  refine ⟨rfl, rfl, ?_⟩
  simp [processErrors, GoErr.errorMsg]

/-- C7: the taxonomy mapping — InvalidParam and MissingParam yield 400
with codes "Invalid Parameter" and "Missing Parameter"; EntityNotFound
and FileNotFound yield 404 with codes "Entity Not Found" and "File Not
Found"; MethodMissing yields 405 with code "Method not allowed"; an
unrecognized error yields 500 with code "Internal Server Error" and
reason equal to the error's own message. -/
theorem error_taxonomy_mapping (now : GoTime) (p m : String) (part : Bool)
    (ps qs : List String) (entity id method' url msg : String) :
    ((processErrors now p m part (.invalidParam ps)).result =
      ⟨400, [.resp ⟨400, "Invalid Parameter", (GoErr.invalidParam ps).errorMsg,
        "", "", "", [], ⟨now.utcRFC3339, now.zoneAbbrev⟩⟩]⟩) ∧
    ((processErrors now p m part (.missingParam qs)).result =
      ⟨400, [.resp ⟨400, "Missing Parameter", (GoErr.missingParam qs).errorMsg,
        "", "", "", [], ⟨now.utcRFC3339, now.zoneAbbrev⟩⟩]⟩) ∧
    ((processErrors now p m part (.entityNotFound entity id)).result =
      ⟨404, [.resp ⟨404, "Entity Not Found", (GoErr.entityNotFound entity id).errorMsg,
        "", "", "", [], ⟨now.utcRFC3339, now.zoneAbbrev⟩⟩]⟩) ∧
    ((processErrors now p m part .fileNotFound).result =
      ⟨404, [.resp ⟨404, "File Not Found", GoErr.fileNotFound.errorMsg,
        "", "", "", [], ⟨now.utcRFC3339, now.zoneAbbrev⟩⟩]⟩) ∧
    ((processErrors now p m part (.methodMissing method' url)).result =
      ⟨405, [.resp ⟨405, "Method not allowed", (GoErr.methodMissing method' url).errorMsg,
        "", "", "", [], ⟨now.utcRFC3339, now.zoneAbbrev⟩⟩]⟩) ∧
    ((processErrors now p m part (.generic msg)).result =
      ⟨500, [.resp ⟨500, "Internal Server Error", msg,
        "", "", "", [], ⟨now.utcRFC3339, now.zoneAbbrev⟩⟩]⟩) := by
  exact ⟨rfl, rfl, rfl, rfl, rfl, rfl⟩

/-- C8: with a nil handler error or an EntityAlreadyExists error, the
dispatcher hands the error through to the output writer unchanged, no
error message is recorded on the request context, and no counter
increments or error logs occur (the aggregator is never reached). -/
theorem success_passthrough (now : GoTime) (data : Option Unit) (p m : String) :
    (ServeHTTP now data none p m = ⟨.passthrough none, none, [], []⟩) ∧
    (ServeHTTP now data (some .entityAlreadyExists) p m =
      ⟨.passthrough (some .entityAlreadyExists), none, [], []⟩) := by
  exact ⟨rfl, rfl⟩

/-- C9: any error that is not a MultiError aggregates to a MultiError
whose element list has exactly one element (so only a MultiError input
can produce zero or several elements). -/
theorem non_multi_singleton_result (now : GoTime) (p m : String) (part : Bool)
    (e : GoErr) (h : e.isMultiple = false) :
    (processErrors now p m part e).result.errors.length = 1 := by
  cases e <;> simp [GoErr.isMultiple] at h ⊢ <;> simp [processErrors]

/-- Witness for C9 at the concrete non-MultiError input `db "x"`. -/
theorem non_multi_singleton_result_witness :
    (GoErr.db "x").isMultiple = false ∧
    (processErrors ⟨"2024-01-01T00:00:00Z", "UTC"⟩ "/p" "GET" false
      (.db "x")).result.errors.length = 1 :=
  ⟨rfl, non_multi_singleton_result ⟨"2024-01-01T00:00:00Z", "UTC"⟩ "/p" "GET" false
    (.db "x") rfl⟩

/-- C6: a preformed `*errors.Response` with an empty timestamp value is
emitted with the ambient clock's (non-empty) UTC RFC3339 value and
(non-empty) zone abbreviation, all other fields unchanged; one with a
non-empty timestamp is emitted entirely unchanged. -/
theorem preformed_timestamp_defaulting (now : GoTime) (p m : String) (part : Bool)
    (resp : Response) (hv : now.utcRFC3339 ≠ "") (hz : now.zoneAbbrev ≠ "") :
    (resp.dateTime.value = "" →
      (processErrors now p m part (.preformed resp)).result =
        ⟨resp.statusCode,
          [.resp { resp with dateTime := ⟨now.utcRFC3339, now.zoneAbbrev⟩ }]⟩ ∧
      ({ resp with dateTime := (⟨now.utcRFC3339, now.zoneAbbrev⟩ : DateTime) }
        : Response).dateTime.value ≠ "" ∧
      ({ resp with dateTime := (⟨now.utcRFC3339, now.zoneAbbrev⟩ : DateTime) }
        : Response).dateTime.timeZone ≠ "") ∧
    (resp.dateTime.value ≠ "" →
      (processErrors now p m part (.preformed resp)).result =
        ⟨resp.statusCode, [.resp resp]⟩) := by
  constructor
  · intro h
    refine ⟨?_, hv, hz⟩
    simp [processErrors, h]
  · intro h
    simp [processErrors, h]

/-- Witness for C6: one preformed response with an empty timestamp gets
the ambient stamp, one with a pre-set timestamp is unchanged. -/
theorem preformed_timestamp_defaulting_witness :
    ((processErrors ⟨"2024-01-01T00:00:00Z", "UTC"⟩ "/p" "GET" false
      (.preformed ⟨503, "c", "r", "", "", "", [], ⟨"", ""⟩⟩)).result =
        ⟨503, [.resp ⟨503, "c", "r", "", "", "", [],
          ⟨"2024-01-01T00:00:00Z", "UTC"⟩⟩]⟩) ∧
    ((processErrors ⟨"2024-01-01T00:00:00Z", "UTC"⟩ "/p" "GET" false
      (.preformed ⟨503, "c", "r", "", "", "", [], ⟨"t0", "Z0"⟩⟩)).result =
        ⟨503, [.resp ⟨503, "c", "r", "", "", "", [], ⟨"t0", "Z0"⟩⟩]⟩) :=
  ⟨((preformed_timestamp_defaulting ⟨"2024-01-01T00:00:00Z", "UTC"⟩ "/p" "GET" false
      ⟨503, "c", "r", "", "", "", [], ⟨"", ""⟩⟩ (by decide) (by decide)).1 rfl).1,
   (preformed_timestamp_defaulting ⟨"2024-01-01T00:00:00Z", "UTC"⟩ "/p" "GET" false
      ⟨503, "c", "r", "", "", "", [], ⟨"t0", "Z0"⟩⟩ (by decide) (by decide)).2 (by decide)⟩

/-- C3: a MultiError whose leaves (however deeply nested in inner
MultiErrors) are all non-Raw aggregates to a flat MultiError carrying
the outermost declared status code, whose element list is exactly the
leaves' normalizations concatenated in leaf order — each leaf
contributing exactly one normalized `*errors.Response` element — so the
output has exactly as many entries as there are leaves and contains no
MultiError element. -/
theorem multi_error_flattening (now : GoTime) (p m : String) (part : Bool)
    (sc : Nat) (es : List GoErr)
    (h : ∀ l ∈ GoErr.leavesList es, l.isRaw = false) :
    ((processErrors now p m part (.multiple sc es)).result.statusCode = sc) ∧
    ((processErrors now p m part (.multiple sc es)).result.errors =
      (GoErr.leavesList es).flatMap
        (fun l => (processErrors now p m part l).result.errors)) ∧
    (∀ l ∈ GoErr.leavesList es, ∃ r,
      (processErrors now p m part l).result.errors = [ErrElem.resp r]) ∧
    ((processErrors now p m part (.multiple sc es)).result.errors.length =
      (GoErr.leavesList es).length) := by
  have hleaf : ∀ l ∈ GoErr.leavesList es, ∃ r,
      (processErrors now p m part l).result.errors = [ErrElem.resp r] := by
    intro l hl
    have hm : l.isMultiple = false := by
      have := leaves_not_multiple (GoErr.multiple sc es)
      simpa [GoErr.leaves] using this l (by simpa [GoErr.leaves] using hl)
    exact leaf_resp now p m part l hm (h l hl)
  have hdec := errors_eq_leaves_flatMap now p m part (GoErr.multiple sc es)
  simp only [GoErr.leaves] at hdec
  refine ⟨rfl, hdec, hleaf, ?_⟩
  rw [hdec]
  exact flatMap_length_of_singletons _ _ (fun l hl => by
    obtain ⟨r, hr⟩ := hleaf l hl
    simp [hr])

/-- Witness for C3 at a concrete MultiError (status 400) nesting an
inner MultiError (status 401) with two leaves plus a third leaf. -/
theorem multi_error_flattening_witness :
    (∀ l ∈ GoErr.leavesList [GoErr.multiple 401 [.invalidParam ["a"], .missingParam ["b"]],
        .entityNotFound "user" "1"], l.isRaw = false) ∧
    ((processErrors ⟨"2024-01-01T00:00:00Z", "UTC"⟩ "/p" "GET" false
        (.multiple 400 [.multiple 401 [.invalidParam ["a"], .missingParam ["b"]],
          .entityNotFound "user" "1"])).result.statusCode = 400) ∧
    ((processErrors ⟨"2024-01-01T00:00:00Z", "UTC"⟩ "/p" "GET" false
        (.multiple 400 [.multiple 401 [.invalidParam ["a"], .missingParam ["b"]],
          .entityNotFound "user" "1"])).result.errors =
      (GoErr.leavesList [GoErr.multiple 401 [.invalidParam ["a"], .missingParam ["b"]],
          .entityNotFound "user" "1"]).flatMap
        (fun l => (processErrors ⟨"2024-01-01T00:00:00Z", "UTC"⟩ "/p" "GET" false
          l).result.errors)) ∧
    (∀ l ∈ GoErr.leavesList [GoErr.multiple 401 [.invalidParam ["a"], .missingParam ["b"]],
        .entityNotFound "user" "1"], ∃ r,
      (processErrors ⟨"2024-01-01T00:00:00Z", "UTC"⟩ "/p" "GET" false
        l).result.errors = [ErrElem.resp r]) ∧
    ((processErrors ⟨"2024-01-01T00:00:00Z", "UTC"⟩ "/p" "GET" false
        (.multiple 400 [.multiple 401 [.invalidParam ["a"], .missingParam ["b"]],
          .entityNotFound "user" "1"])).result.errors.length =
      (GoErr.leavesList [GoErr.multiple 401 [.invalidParam ["a"], .missingParam ["b"]],
          .entityNotFound "user" "1"]).length) := by
  have h := multi_error_flattening ⟨"2024-01-01T00:00:00Z", "UTC"⟩ "/p" "GET" false 400
    [GoErr.multiple 401 [.invalidParam ["a"], .missingParam ["b"]],
      .entityNotFound "user" "1"] (by decide)
  exact ⟨by decide, h.1, h.2.1, h.2.2.1, h.2.2.2⟩

/-- C5 (counterexample): a non-nil error input — a preformed
`*errors.Response` with status code 0 and empty reason — is emitted to
the client as-is: the aggregated result contains an ErrorResponse whose
statusCode is 0 and whose reason is empty. -/
theorem preformed_zero_status_emitted :
    ((processErrors ⟨"2024-01-01T00:00:00Z", "UTC"⟩ "/p" "GET" false
        (.preformed ⟨0, "", "", "", "", "", [], ⟨"", ""⟩⟩)).result.errors =
      [.resp ⟨0, "", "", "", "", "", [], ⟨"2024-01-01T00:00:00Z", "UTC"⟩⟩]) ∧
    (elemOK (.resp ⟨0, "", "", "", "", "", [], ⟨"2024-01-01T00:00:00Z", "UTC"⟩⟩) = false) :=
  ⟨rfl, rfl⟩

/-- C5 (amended): every ErrorResponse in the aggregated result of any
non-nil error input has a non-zero statusCode and a non-empty reason,
provided no leaf is a preformed `*errors.Response` (those are emitted
as given, possibly with zero status or empty reason) and every
unclassified leaf carries a non-empty message; Raw leaves surface as
raw errors, not ErrorResponses. -/
theorem emitted_responses_well_formed (now : GoTime) (p m : String) (part : Bool)
    (e : GoErr) (h : ∀ l ∈ e.leaves, leafMsgOK l = true) :
    ∀ x ∈ (processErrors now p m part e).result.errors, elemOK x = true := by
  have hdec := errors_eq_leaves_flatMap now p m part e
  rw [hdec]
  intro x hx
  rw [List.mem_flatMap] at hx
  obtain ⟨l, hl, hxl⟩ := hx
  exact leaf_elems_ok now p m part l (leaves_not_multiple e l hl) (h l hl) x hxl

/-- Witness for C5 (amended) at a nested MultiError holding an
InvalidParam and a DB leaf. -/
theorem emitted_responses_well_formed_witness :
    (∀ l ∈ (GoErr.multiple 400 [.multiple 401 [.invalidParam ["a"]], .db "x"]).leaves,
      leafMsgOK l = true) ∧
    (∀ x ∈ (processErrors ⟨"2024-01-01T00:00:00Z", "UTC"⟩ "/p" "GET" false
        (.multiple 400 [.multiple 401 [.invalidParam ["a"]], .db "x"])).result.errors,
      elemOK x = true) :=
  ⟨by decide, emitted_responses_well_formed ⟨"2024-01-01T00:00:00Z", "UTC"⟩ "/p" "GET" false
    (.multiple 400 [.multiple 401 [.invalidParam ["a"]], .db "x"]) (by decide)⟩

end Gofr

namespace Mqtt

/-- C10: with a configured client, PublishEvent publishes the value
once, to the topic and QoS fixed in the adapter's configuration,
independently of the caller's topic argument, and returns the publish
token's error; with a nil client it publishes nothing and returns
"client not configured". -/
theorem publish_event_fixed_topic (config : Config) (tokenErr : Option String)
    (t1 t2 v : String) :
    (PublishEvent true config tokenErr t1 v =
      ([⟨config.topic, config.qoS, false, v⟩], tokenErr)) ∧
    (PublishEvent true config tokenErr t1 v = PublishEvent true config tokenErr t2 v) ∧
    (PublishEvent false config tokenErr t1 v = ([], some "client not configured")) := by
  exact ⟨rfl, rfl, rfl⟩

end Mqtt
